import Mathlib

/-!
Verification of the Google-Maps-Scraper repository's natural-language
specification against its source.

The development shallowly embeds the two core modules:

* `src/data_filter.py` (class `BusinessFilter`): lead-qualification engine,
  embedded in namespace `DataFilter`.  Python dicts become Lean structures,
  Python strings become `String` (manipulated as `List Char`), regular
  expressions become an executable token matcher with Python `findall`
  semantics, and floats become `ℚ`.
* `src/scraper.py` (class `GoogleMapsScraper`): session manager, embedded in
  namespace `Scraper`.  Browser interaction is abstracted into oracles; the
  control flow (retry loops, caching, dedup, the outer try/except of
  `scrape_businesses`) is translated faithfully, with Python exceptions
  modelled as `Except`.
-/

namespace PyStr

/-- Python whitespace characters recognised by `str.strip` and `\s`
(ASCII fragment: space, tab, newline, carriage return, vertical tab,
form feed). -/
def isSpace (c : Char) : Bool :=
  c = ' ' || c = '\t' || c = '\n' || c = '\r' || c = '\x0b' || c = '\x0c'

/-- Python `str.strip()` (whitespace from both ends). -/
def strip (s : String) : String :=
  String.mk (((s.data.dropWhile isSpace).reverse.dropWhile isSpace).reverse)

/-- Python `str.lower()` (ASCII case fold suffices for the inputs involved). -/
def lower (s : String) : String :=
  String.mk (s.data.map Char.toLower)

/-- Python `sub in s` substring test (searched at every position). -/
def containsAux (sub : List Char) : List Char → Bool
  | [] => sub.isEmpty
  | c :: cs => sub.isPrefixOf (c :: cs) || containsAux sub cs

def contains (s sub : String) : Bool :=
  containsAux sub.data s.data

/-- Python `s.startswith(pre)`. -/
def startswith (s pre : String) : Bool :=
  pre.data.isPrefixOf s.data

/-- Python `s.replace("www.", "")`: remove every non-overlapping occurrence,
scanning left to right. -/
def removeWWWAux : List Char → List Char
  | 'w' :: 'w' :: 'w' :: '.' :: rest => removeWWWAux rest
  | c :: rest => c :: removeWWWAux rest
  | [] => []

def removeWWW (s : String) : String := String.mk (removeWWWAux s.data)

/-- `urllib.parse.urlparse(url).netloc` for URLs that carry an explicit
`http://` or `https://` scheme (the call site in `_analyze_website`
guarantees the prefix); the authority ends at the first `/`, `?` or `#`. -/
def urlNetloc (w : String) : String :=
  let rest :=
    if startswith w "https://" then w.data.drop 8
    else if startswith w "http://" then w.data.drop 7
    else []
  String.mk (rest.takeWhile (fun c => !(c = '/' || c = '?' || c = '#')))

end PyStr

namespace PyRe

/-- Tokens of the regular-expression fragment used by the repository.
Captured groups are exactly the `capPlus`/`capRun` tokens (plus fixed
literal text re-attached by the per-pattern extractors). -/
inductive RTok where
  | lit (cs : List Char)            -- literal text
  | optChar (c : Char)              -- `c?`, greedy
  | optCls (f : Char → Bool)        -- `[cls]?`, greedy
  | starCls (f : Char → Bool)       -- `[cls]*`, greedy
  | lazyDot                         -- `.*?` (no newline), lazy
  | capPlus (f : Char → Bool)       -- `([cls]+)`, greedy, captured
  | capRun (f : Char → Bool) (n : Nat)  -- `([cls]{n})`, captured

/-- Try `f k`, `f (k-1)`, …, `f 0`, returning the first success
(used for greedy backtracking). -/
def tryDesc {β : Type} : Nat → (Nat → Option β) → Option β
  | 0, f => f 0
  | k + 1, f => (f (k + 1)).orElse (fun _ => tryDesc k f)

/-- Try `f 0`, `f 1`, …, `f k`, returning the first success
(used for lazy expansion). -/
def tryAsc {β : Type} (k : Nat) (f : Nat → Option β) : Option β :=
  tryDesc k (fun i => f (k - i))

/-- Match a token list at the head of the input with Python backtracking
semantics; return the captured groups and the remaining input. -/
def matchToks : List RTok → List Char → Option (List (List Char) × List Char)
  | [], s => some ([], s)
  | .lit cs :: rest, s =>
    if cs.isPrefixOf s then matchToks rest (s.drop cs.length) else none
  | .optChar c :: rest, s =>
    match s with
    | x :: s2 =>
      if x = c then
        (matchToks rest s2).orElse (fun _ => matchToks rest (x :: s2))
      else matchToks rest (x :: s2)
    | [] => matchToks rest []
  | .optCls f :: rest, s =>
    match s with
    | x :: s2 =>
      if f x then
        (matchToks rest s2).orElse (fun _ => matchToks rest (x :: s2))
      else matchToks rest (x :: s2)
    | [] => matchToks rest []
  | .starCls f :: rest, s =>
    let k := (s.takeWhile f).length
    tryDesc k (fun i => matchToks rest (s.drop i))
  | .lazyDot :: rest, s =>
    let k := (s.takeWhile (fun c => !(c = '\n'))).length
    tryAsc k (fun i => matchToks rest (s.drop i))
  | .capPlus f :: rest, s =>
    let k := (s.takeWhile f).length
    if k = 0 then none
    else
      tryDesc (k - 1) (fun j =>
        (matchToks rest (s.drop (j + 1))).map
          (fun r => ((s.take (j + 1)) :: r.1, r.2)))
  | .capRun f n :: rest, s =>
    let pre := s.take n
    if pre.length = n && pre.all f then
      (matchToks rest (s.drop n)).map (fun r => (pre :: r.1, r.2))
    else none

/-- `re.findall` driver: scan candidate start positions left to right,
collect captures of each (non-overlapping) match.  `fuel` bounds the scan
(one unit per consumed character / advanced position). -/
def findAllAux (toks : List RTok) : Nat → List Char → List (List (List Char))
  | 0, _ => []
  | _ + 1, [] =>
    match matchToks toks [] with
    | some (caps, _) => [caps]
    | none => []
  | fuel + 1, c :: rest =>
    match matchToks toks (c :: rest) with
    | some (caps, rem) =>
      caps :: (if rem.length < (c :: rest).length then findAllAux toks fuel rem
               else findAllAux toks fuel rest)
    | none => findAllAux toks fuel rest

def findAll (toks : List RTok) (s : List Char) : List (List (List Char)) :=
  findAllAux toks (s.length + 1) s

/-- `re.search` driver: first match scanning left to right, returning its
captured groups. -/
def searchAux (toks : List RTok) : Nat → List Char → Option (List (List Char))
  | 0, _ => none
  | _ + 1, [] => (matchToks toks []).map (·.1)
  | fuel + 1, c :: rest =>
    match matchToks toks (c :: rest) with
    | some (caps, _) => some caps
    | none => searchAux toks fuel rest

def search (toks : List RTok) (s : List Char) : Option (List (List Char)) :=
  searchAux toks (s.length + 1) s

/-- Character class `[a-zA-Z0-9_.]` (Instagram-username class). -/
def isUser (c : Char) : Bool :=
  c.isAlpha || c.isDigit || c = '_' || c = '.'

/-- Character class `\w` = `[a-zA-Z0-9_]`. -/
def isWord (c : Char) : Bool :=
  c.isAlpha || c.isDigit || c = '_'

/-- Character class `[\w.-]`. -/
def isWordDotDash (c : Char) : Bool :=
  isWord c || c = '.' || c = '-'

/-- Character class `[\w/.-]`. -/
def isWordSlashDotDash (c : Char) : Bool :=
  isWord c || c = '/' || c = '.' || c = '-'

/-- Character class `[-.\s]` (phone separators). -/
def isPhoneSep (c : Char) : Bool :=
  c = '-' || c = '.' || PyStr.isSpace c

end PyRe

namespace DataFilter

/-- One scraped business record (`business_data` dict produced by
`GoogleMapsScraper.extract_business_data`); `analyze_business` reads exactly
these six keys, each defaulting to the empty string. -/
structure BusinessData where
  name : String := ""
  phone : String := ""
  address : String := ""
  website : String := ""
  description : String := ""
  url : String := ""
deriving Repr, DecidableEq

/-- The analysis dict built by `BusinessFilter.analyze_business`. -/
structure Analysis where
  business_name : String
  phone : String
  address : String
  original_website : String
  description : String
  url : String
  has_real_website : Bool
  website_type : String
  instagram_found : Bool
  instagram_links : List String
  squarespace_found : Bool
  squarespace_links : List String
  booksy_found : Bool
  booksy_links : List String
  other_booking_found : Bool
  other_booking_links : List String
  is_qualified_lead : Bool
  qualification_reason : String
  notes : String
deriving Repr, DecidableEq

/-- `self.social_domains`. -/
def social_domains : List String :=
  ["instagram.com", "facebook.com", "twitter.com", "tiktok.com",
   "linkedin.com", "youtube.com", "snapchat.com", "pinterest.com"]

/-- `self.booking_platforms` (a Python dict; its insertion order drives the
platform loop in `_analyze_website`). -/
def booking_platforms : List (String × List String) :=
  [("squarespace", ["squarespace.com", "static1.squarespace.com", "squareup.com"]),
   ("booksy", ["booksy.com", "booksy.biz"]),
   ("acuity", ["acuityscheduling.com"]),
   ("schedulicity", ["schedulicity.com"]),
   ("vagaro", ["vagaro.com"]),
   ("styleseat", ["styleseat.com"])]

/-- `self.google_domains`. -/
def google_domains : List String :=
  ["google.com", "maps.google.com", "googleusercontent.com",
   "gstatic.com", "googleapis.com"]

/-- Result dict of `_analyze_website` / `_analyze_description` (the ten
analysis fields they populate). -/
structure WebsiteAnalysis where
  has_real_website : Bool := false
  website_type : String := "none"
  instagram_found : Bool := false
  instagram_links : List String := []
  squarespace_found : Bool := false
  squarespace_links : List String := []
  booksy_found : Bool := false
  booksy_links : List String := []
  other_booking_found : Bool := false
  other_booking_links : List String := []
deriving Repr, DecidableEq

/-- The `for platform, domains in self.booking_platforms.items()` loop body of
`_analyze_website`, unrolled over the literal dict: first platform whose
domain list matches wins; the website type is `f"{platform}_booking"`. -/
def analyzeWebsiteBooking (website domain : String) : Option WebsiteAnalysis :=
  if (booking_platforms.get! 0).2.any (fun d => PyStr.contains domain d) then
    some { website_type := "squarespace_booking", squarespace_found := true,
           squarespace_links := [website] }
  else if (booking_platforms.get! 1).2.any (fun d => PyStr.contains domain d) then
    some { website_type := "booksy_booking", booksy_found := true,
           booksy_links := [website] }
  else if (booking_platforms.get! 2).2.any (fun d => PyStr.contains domain d) then
    some { website_type := "acuity_booking", other_booking_found := true,
           other_booking_links := [website] }
  else if (booking_platforms.get! 3).2.any (fun d => PyStr.contains domain d) then
    some { website_type := "schedulicity_booking", other_booking_found := true,
           other_booking_links := [website] }
  else if (booking_platforms.get! 4).2.any (fun d => PyStr.contains domain d) then
    some { website_type := "vagaro_booking", other_booking_found := true,
           other_booking_links := [website] }
  else if (booking_platforms.get! 5).2.any (fun d => PyStr.contains domain d) then
    some { website_type := "styleseat_booking", other_booking_found := true,
           other_booking_links := [website] }
  else none

/-- `instagram_indicators` local list of `_analyze_website`. -/
def instagram_indicators : List String :=
  ["instagram.com", "instagr.am", "ig.me"]

/-- The domain-classification chain of `_analyze_website` (everything after
the URL has been normalised and its domain extracted). -/
def analyzeWebsiteDomain (website domain : String) : WebsiteAnalysis :=
  if google_domains.any (fun g => PyStr.contains domain g) then
    { website_type := "google" }
  else if instagram_indicators.any (fun ind => PyStr.contains domain ind) then
    { website_type := "instagram", instagram_found := true,
      instagram_links := [website] }
  else if social_domains.any (fun d => PyStr.contains domain d) then
    { website_type := "social_media" }
  else
    match analyzeWebsiteBooking website domain with
    | some r => r
    | none => { has_real_website := true, website_type := "real_website" }

/-- `BusinessFilter._analyze_website`. -/
def analyze_website (website0 : String) : WebsiteAnalysis :=
  if website0 = "" || PyStr.strip website0 = "" then { website_type := "none" }
  else
    let website1 := PyStr.lower (PyStr.strip website0)
    let website :=
      if PyStr.startswith website1 "http://" || PyStr.startswith website1 "https://" then
        website1
      else "https://" ++ website1
    analyzeWebsiteDomain website (PyStr.removeWWW (PyStr.lower (PyStr.urlNetloc website)))

/-- `self.instagram_patterns` (ten compiled regexes; `re.IGNORECASE` is
immaterial because every scanned text is lowercased first). -/
def instagram_patterns : List (List PyRe.RTok) :=
  [[.lit ['@'], .capPlus PyRe.isUser],
   [.lit "instagram.com/".data, .capPlus PyRe.isUser],
   [.lit ['i', 'g'], .optChar ':', .starCls PyStr.isSpace, .capPlus PyRe.isUser],
   [.lit "follow".data, .lazyDot, .lit ['@'], .capPlus PyRe.isUser],
   [.lit "insta".data, .optChar ':', .starCls PyStr.isSpace, .optChar '@',
    .capPlus PyRe.isUser],
   [.lit "check".data, .lazyDot, .lit ['@'], .capPlus PyRe.isUser],
   [.lit "find".data, .lazyDot, .lit ['@'], .capPlus PyRe.isUser],
   [.lit "visit".data, .lazyDot, .lit ['@'], .capPlus PyRe.isUser],
   [.lit "see".data, .lazyDot, .lit ['@'], .capPlus PyRe.isUser],
   [.lit "on instagram".data, .optChar ':', .starCls PyStr.isSpace, .optChar '@',
    .capPlus PyRe.isUser]]

/-- `([\w.-]+\.squarespace\.com)` (capture spans run plus literal tail). -/
def squarespace_link_pattern : List PyRe.RTok :=
  [.capPlus PyRe.isWordDotDash, .lit ".squarespace.com".data]

/-- `(booksy\.com/[\w/.-]+)` (capture spans literal head plus run). -/
def booksy_link_pattern : List PyRe.RTok :=
  [.lit "booksy.com/".data, .capPlus PyRe.isWordSlashDotDash]

/-- `self.booking_keywords`. -/
def booking_keywords_squarespace : List String :=
  ["squarespace", "square space", "book online"]

def booking_keywords_booksy : List String :=
  ["booksy", "book with booksy"]

def booking_keywords_general : List String :=
  ["book appointment", "schedule online", "online booking", "appointment booking"]

/-- First capture group of a `findall` hit (all patterns above have exactly
one group). -/
def group1 (caps : List (List Char)) : String := String.mk (caps.headD [])

/-- `BusinessFilter._analyze_description`. -/
def analyze_description (description0 : String) : WebsiteAnalysis :=
  if description0 = "" then {}
  else
    let d := (PyStr.lower description0).data
    let igHits := instagram_patterns.map (fun pat => PyRe.findAll pat d)
    let instagram_found := igHits.any (fun ms => !ms.isEmpty)
    let instagram_links :=
      igHits.foldl (fun acc ms =>
        acc ++ (ms.filterMap (fun caps =>
          let m := group1 caps
          if m ≠ "" && m.length > 2 then some ("instagram.com/" ++ m) else none)))
        []
    let descr := String.mk d
    let squarespace_found :=
      booking_keywords_squarespace.any (fun t => PyStr.contains descr t)
    let squarespace_links :=
      if squarespace_found then
        (PyRe.findAll squarespace_link_pattern d).map
          (fun caps => group1 caps ++ ".squarespace.com")
      else []
    let booksy_found :=
      booking_keywords_booksy.any (fun t => PyStr.contains descr t)
    let booksy_links :=
      if booksy_found then
        (PyRe.findAll booksy_link_pattern d).map
          (fun caps => "booksy.com/" ++ group1 caps)
      else []
    let other_booking_found :=
      booking_keywords_general.any (fun t => PyStr.contains descr t)
    { instagram_found := instagram_found, instagram_links := instagram_links,
      squarespace_found := squarespace_found, squarespace_links := squarespace_links,
      booksy_found := booksy_found, booksy_links := booksy_links,
      other_booking_found := other_booking_found }

/-- Result of `_comprehensive_instagram_detection`. -/
structure InstagramDetection where
  instagram_found : Bool := false
  instagram_links : List String := []
  instagram_handles : List String := []
deriving Repr, DecidableEq

/-- The four `(field, value)` pairs scanned by the comprehensive detectors,
in source order: website, description, name, address. -/
def fields_to_check (b : BusinessData) : List String :=
  [b.website, b.description, b.name, b.address]

/-- `instagram\.com/([a-zA-Z0-9_.]+)` (used via `re.search`). -/
def instagram_username_pattern : List PyRe.RTok :=
  [.lit "instagram.com/".data, .capPlus PyRe.isUser]

/-- Body of `_comprehensive_instagram_detection`'s field loop for one field
value (already lowercased). -/
def instagramFieldStep (acc : InstagramDetection) (fv : String) : InstagramDetection :=
  if fv = "" then acc
  else
    let fvl := PyStr.lower fv
    let acc :=
      if PyStr.contains fvl "instagram.com" || PyStr.contains fvl "instagr.am" then
        let handles :=
          match PyRe.search instagram_username_pattern fvl.data with
          | some caps => acc.instagram_handles ++ [group1 caps]
          | none => acc.instagram_handles
        { acc with instagram_found := true,
                   instagram_links := acc.instagram_links ++ [fvl],
                   instagram_handles := handles }
      else acc
    instagram_patterns.foldl (fun acc pat =>
      let ms := PyRe.findAll pat fvl.data
      if ms.isEmpty then acc
      else
        let handles :=
          ms.foldl (fun hs caps =>
            let m := group1 caps
            if hs.contains m then hs else hs ++ [m]) acc.instagram_handles
        { acc with instagram_found := true, instagram_handles := handles }) acc

/-- `BusinessFilter._comprehensive_instagram_detection`. -/
def comprehensive_instagram_detection (b : BusinessData) : InstagramDetection :=
  (fields_to_check b).foldl instagramFieldStep {}

/-- Result of `_comprehensive_squarespace_detection` /
`_comprehensive_booksy_detection`. -/
structure PlatformDetection where
  found : Bool := false
  links : List String := []
deriving Repr, DecidableEq

/-- `squarespace_domains` local list. -/
def squarespace_domains : List String :=
  ["squarespace.com", "squarespace.net", "squarespace.org",
   "squarespace.io", "squarespace.co", "squarespace.me",
   "squarespace.app", "squarespace.dev", "squarespace.test",
   "squarespace.local", "static1.squarespace.com"]

/-- `squarespace_indicators` local list. -/
def squarespace_indicators : List String :=
  ["squarespace", "square space", "book online", "online booking",
   "powered by squarespace", "squarespace.com", "schedule online",
   "appointment booking", "book appointment online"]

/-- `booksy_domains` local list. -/
def booksy_domains : List String :=
  ["booksy.com", "booksy.biz", "booksy.net", "booksy.org",
   "booksy.io", "booksy.co", "booksy.me", "booksy.app"]

/-- `booksy_indicators` local list. -/
def booksy_indicators : List String :=
  ["booksy", "book with booksy", "booksy.com", "booksy app",
   "download booksy", "book on booksy", "booksy booking",
   "book appointment", "schedule appointment", "book online"]

/-- Field-loop body shared by the squarespace and booksy comprehensive
detectors: a domain hit records the (lowercased) field value as a link,
an indicator hit merely sets the flag. -/
def platformFieldStep (domains indicators : List String)
    (acc : PlatformDetection) (fv : String) : PlatformDetection :=
  if fv = "" then acc
  else
    let fvl := PyStr.lower fv
    let acc :=
      if domains.any (fun d => PyStr.contains fvl d) then
        { found := true, links := acc.links ++ [fvl] }
      else acc
    if indicators.any (fun ind => PyStr.contains fvl ind) then
      { acc with found := true }
    else acc

/-- `BusinessFilter._comprehensive_squarespace_detection`. -/
def comprehensive_squarespace_detection (b : BusinessData) : PlatformDetection :=
  (fields_to_check b).foldl (platformFieldStep squarespace_domains squarespace_indicators) {}

/-- `BusinessFilter._comprehensive_booksy_detection`. -/
def comprehensive_booksy_detection (b : BusinessData) : PlatformDetection :=
  (fields_to_check b).foldl (platformFieldStep booksy_domains booksy_indicators) {}

/-- The three keys returned by `_determine_qualification`. -/
structure Qualification where
  is_qualified_lead : Bool := false
  qualification_reason : String := ""
  notes : String := ""
deriving Repr, DecidableEq

/-- Python `", ".join l`. -/
def joinComma : List String → String
  | [] => ""
  | [x] => x
  | x :: xs => x ++ ", " ++ joinComma xs

/-- `BusinessFilter._determine_qualification`. -/
def determine_qualification (a : Analysis) : Qualification :=
  if a.has_real_website then
    { is_qualified_lead := false, qualification_reason := "Has established website",
      notes := "Real website found: " ++ a.original_website }
  else if [ "social_media" ].contains a.website_type && !a.instagram_found then
    { is_qualified_lead := false,
      qualification_reason := "Uses social media platform (non-Instagram)" }
  else if a.website_type = "none" && !a.instagram_found then
    { is_qualified_lead := true,
      qualification_reason := "No online presence - prime candidate",
      notes := "Business has only phone/address listing" }
  else if a.instagram_found && !a.has_real_website then
    { is_qualified_lead := true, qualification_reason := "Instagram-only presence",
      notes := if a.instagram_links ≠ [] then
                 "Instagram: " ++ joinComma (a.instagram_links.take 2)
               else "" }
  else if a.squarespace_found || a.booksy_found || a.other_booking_found then
    { is_qualified_lead := true,
      qualification_reason := "Uses booking platform instead of website",
      notes := joinComma
        ((if a.squarespace_found then ["Squarespace booking"] else []) ++
         (if a.booksy_found then ["Booksy booking"] else []) ++
         (if a.other_booking_found then ["Other booking platform"] else [])) }
  else
    { is_qualified_lead := false,
      qualification_reason := "Has sufficient online presence" }

/-- `analyze_business` up to (but not including) `_determine_qualification`:
the initial dict, the `_analyze_website` update, the `_analyze_description`
merge (which only merges the instagram/squarespace/booksy flags and links),
and the three comprehensive-detection merges. -/
def pre_qualification_analysis (b : BusinessData) : Analysis :=
  let w := analyze_website b.website
  let d := analyze_description b.description
  let a : Analysis :=
    { business_name := b.name, phone := b.phone, address := b.address,
      original_website := b.website, description := b.description, url := b.url,
      has_real_website := w.has_real_website, website_type := w.website_type,
      instagram_found := w.instagram_found || d.instagram_found,
      instagram_links := w.instagram_links ++ d.instagram_links,
      squarespace_found := w.squarespace_found || d.squarespace_found,
      squarespace_links := w.squarespace_links ++ d.squarespace_links,
      booksy_found := w.booksy_found || d.booksy_found,
      booksy_links := w.booksy_links ++ d.booksy_links,
      other_booking_found := w.other_booking_found,
      other_booking_links := w.other_booking_links,
      is_qualified_lead := false, qualification_reason := "", notes := "" }
  let ig := comprehensive_instagram_detection b
  let a := if ig.instagram_found then
             { a with instagram_found := true,
                      instagram_links := a.instagram_links ++ ig.instagram_links }
           else a
  let sq := comprehensive_squarespace_detection b
  let a := if sq.found then
             { a with squarespace_found := true,
                      squarespace_links := a.squarespace_links ++ sq.links }
           else a
  let bk := comprehensive_booksy_detection b
  let a := if bk.found then
             { a with booksy_found := true,
                      booksy_links := a.booksy_links ++ bk.links }
           else a
  a

/-- `BusinessFilter.analyze_business`. -/
def analyze_business (b : BusinessData) : Analysis :=
  let a := pre_qualification_analysis b
  let q := determine_qualification a
  { a with is_qualified_lead := q.is_qualified_lead,
           qualification_reason := q.qualification_reason,
           notes := q.notes }

/-- Aggregate statistics dict built by `_generate_statistics`; the two
histograms keep Python-dict insertion order as association lists. -/
structure Statistics where
  website_types : List (String × Nat) := []
  qualification_reasons : List (String × Nat) := []
  instagram_count : Nat := 0
  squarespace_count : Nat := 0
  booksy_count : Nat := 0
  no_presence_count : Nat := 0
deriving Repr, DecidableEq

/-- `stats[k] = stats.get(k, 0) + 1` on an insertion-ordered dict. -/
def bumpCount (m : List (String × Nat)) (k : String) : List (String × Nat) :=
  if m.any (fun p => p.1 = k) then
    m.map (fun p => if p.1 = k then (p.1, p.2 + 1) else p)
  else m ++ [(k, 1)]

/-- `BusinessFilter._generate_statistics`. -/
def generate_statistics (all_analysis : List Analysis) : Statistics :=
  all_analysis.foldl (fun st a =>
    { website_types := bumpCount st.website_types a.website_type,
      qualification_reasons := bumpCount st.qualification_reasons a.qualification_reason,
      instagram_count := st.instagram_count + (if a.instagram_found then 1 else 0),
      squarespace_count := st.squarespace_count + (if a.squarespace_found then 1 else 0),
      booksy_count := st.booksy_count + (if a.booksy_found then 1 else 0),
      no_presence_count :=
        st.no_presence_count + (if a.website_type = "none" then 1 else 0) })
    {}

/-- The result dict of `filter_businesses`; `qualification_rate` (a Python
float) is modelled as an exact rational. -/
structure FilterResult where
  qualified_leads : List Analysis
  all_analysis : List Analysis
  statistics : Statistics
  total_businesses : Nat
  qualified_count : Nat
  qualification_rate : ℚ
deriving Repr, DecidableEq

/-- The accumulation loop of `filter_businesses`: every analysis is appended
to `all_analysis`, the qualified ones are additionally appended to
`qualified_leads`, in arrival order. -/
def filterLoop : List BusinessData → List Analysis × List Analysis →
    List Analysis × List Analysis
  | [], acc => acc
  | b :: bs, (qualified_leads, all_analysis) =>
    let analysis := analyze_business b
    let all_analysis := all_analysis ++ [analysis]
    let qualified_leads :=
      if analysis.is_qualified_lead then qualified_leads ++ [analysis]
      else qualified_leads
    filterLoop bs (qualified_leads, all_analysis)

/-- `BusinessFilter.filter_businesses`. -/
def filter_businesses (businesses : List BusinessData) : FilterResult :=
  let (qualified_leads, all_analysis) := filterLoop businesses ([], [])
  { qualified_leads := qualified_leads,
    all_analysis := all_analysis,
    statistics := generate_statistics all_analysis,
    total_businesses := businesses.length,
    qualified_count := qualified_leads.length,
    qualification_rate :=
      if businesses ≠ [] then
        (qualified_leads.length : ℚ) / (businesses.length : ℚ) * 100
      else 0 }

end DataFilter

namespace Scraper

open DataFilter (BusinessData)

/-- The three prioritized patterns of `_extract_phone_fallback`. -/
def phone_patterns : List (List PyRe.RTok) :=
  [[.optChar '+', .optChar '1', .optCls PyRe.isPhoneSep, .optChar '(',
    .capRun Char.isDigit 3, .optChar ')', .optCls PyRe.isPhoneSep,
    .capRun Char.isDigit 3, .optCls PyRe.isPhoneSep, .capRun Char.isDigit 4],
   [.optChar '(', .capRun Char.isDigit 3, .optChar ')', .optCls PyRe.isPhoneSep,
    .capRun Char.isDigit 3, .optCls PyRe.isPhoneSep, .capRun Char.isDigit 4],
   [.capRun Char.isDigit 3, .optCls PyRe.isPhoneSep, .capRun Char.isDigit 3,
    .optCls PyRe.isPhoneSep, .capRun Char.isDigit 4]]

/-- `GoogleMapsScraper._extract_phone_fallback`: scan the page text with each
pattern in priority order; on the first pattern with matches, format the
first match as `(XXX) XXX-XXXX`; if no pattern matches, the phone field is
left untouched (the function returns without writing). -/
def extract_phone_fallback (page_text : String) : Option String :=
  (phone_patterns.findSome? (fun pat =>
    match PyRe.findAll pat page_text.data with
    | caps :: _ => some caps
    | [] => none)).bind (fun caps =>
      if caps.length = 3 then
        some ("(" ++ String.mk (caps.getD 0 []) ++ ") " ++
              String.mk (caps.getD 1 []) ++ "-" ++ String.mk (caps.getD 2 []))
      else none)

/-- The phone field after the fallback step of `extract_business_data`
(`if field == 'phone' and not business_data['phone']:
self._extract_phone_fallback(business_data)`). -/
def phone_after_fallback (current page_text : String) : String :=
  if current = "" then
    match extract_phone_fallback page_text with
    | some p => p
    | none => current
  else current

end Scraper

namespace Scraper

open DataFilter (BusinessData)

/-- Mutable state of a `GoogleMapsScraper` instance: the per-URL result
cache, the failed-URL list, and the two failure counters
(`max_consecutive_failures = 5`, `max_session_restarts = 3`). -/
structure ScraperState where
  business_cache : List (String × BusinessData) := []
  failed_urls : List String := []
  consecutive_failures : Nat := 0
  session_restarts : Nat := 0
deriving Repr, DecidableEq

def max_consecutive_failures : Nat := 5

def max_session_restarts : Nat := 3

/-- `self.business_cache[url]` lookup (dict keys are unique; the first
binding wins). -/
def cacheLookup (c : List (String × BusinessData)) (u : String) : Option BusinessData :=
  (c.find? (fun p => p.1 = u)).map (·.2)

/-- `GoogleMapsScraper._recover_browser_session`: refuse when the restart
budget is exhausted; otherwise quit and re-run `setup_driver` (its success
is an oracle input `setupOk`; a raising `setup_driver` is caught and reported
as failure), counting the restart on success. -/
def recover_browser_session (setupOk : Bool) (s : ScraperState) : Bool × ScraperState :=
  if s.session_restarts ≥ max_session_restarts then (false, s)
  else if setupOk then (true, { s with session_restarts := s.session_restarts + 1 })
  else (false, s)

/-- Oracle outcome of one attempt of the `extract_business_data` retry loop:
the connectivity probe fails (`notConnected`, carrying whether a recovery's
`setup_driver` would succeed), the worker thread times out, the worker
returns `None`, the worker returns a data dict (raw field values; the phone
field goes through `phone_after_fallback`), a `WebDriverException` with or
without an invalid session id, or another exception. -/
inductive AttemptOutcome where
  | notConnected (setupOk : Bool)
  | workerTimeout
  | workerNone
  | workerData (name primaryPhone address website description pageText : String)
  | wdInvalidSession (setupOk : Bool)
  | wdOtherError
  | otherError
deriving Repr, DecidableEq

/-- Oracle for extraction attempts: outcome of attempt `i` on a given URL. -/
def ExtractOracle : Type := String → Nat → AttemptOutcome

/-- The `for attempt in range(max_retries)` loop of `extract_business_data`
(`max_retries = 3`), recursing on the remaining attempts.  Every
final-attempt failure branch records the URL in `failed_urls` and returns
`None`; a successful extraction with a non-empty name caches the record and
resets `consecutive_failures`. -/
def extractAttemptLoop (ora : ExtractOracle) (url : String) :
    Nat → Nat → ScraperState → Option BusinessData × ScraperState
  | 0, _, s => (none, { s with failed_urls := s.failed_urls ++ [url] })
  | remaining + 1, attempt, s =>
    let lastAttempt := remaining = 0
    let fail (s : ScraperState) : Option BusinessData × ScraperState :=
      (none, { s with failed_urls := s.failed_urls ++ [url] })
    match ora url attempt with
    | .notConnected setupOk =>
      if lastAttempt then fail s
      else
        let (_, s2) := recover_browser_session setupOk s
        extractAttemptLoop ora url remaining (attempt + 1) s2
    | .workerTimeout =>
      if lastAttempt then fail s
      else extractAttemptLoop ora url remaining (attempt + 1) s
    | .workerNone =>
      if lastAttempt then fail s
      else extractAttemptLoop ora url remaining (attempt + 1) s
    | .workerData name primaryPhone address website description pageText =>
      let bd : BusinessData :=
        { name := name, phone := phone_after_fallback primaryPhone pageText,
          address := address, website := website, description := description,
          url := url }
      if name = "" then
        if lastAttempt then fail s
        else extractAttemptLoop ora url remaining (attempt + 1) s
      else
        (some bd, { s with business_cache := s.business_cache ++ [(url, bd)],
                           consecutive_failures := 0 })
    | .wdInvalidSession setupOk =>
      if lastAttempt then fail s
      else
        let (_, s2) := recover_browser_session setupOk s
        extractAttemptLoop ora url remaining (attempt + 1) s2
    | .wdOtherError =>
      if lastAttempt then fail s
      else extractAttemptLoop ora url remaining (attempt + 1) s
    | .otherError =>
      if lastAttempt then fail s
      else extractAttemptLoop ora url remaining (attempt + 1) s

/-- `GoogleMapsScraper.extract_business_data`: cached URLs are answered from
the cache without re-extraction; URLs on the failure list are skipped;
otherwise the three-attempt retry loop runs. -/
def extract_business_data (ora : ExtractOracle) (s : ScraperState) (url : String) :
    Option BusinessData × ScraperState :=
  match cacheLookup s.business_cache url with
  | some bd => (some bd, s)
  | none =>
    if s.failed_urls.contains url then (none, s)
    else extractAttemptLoop ora url 3 0 s

/-- One link element read from the results feed (`get_attribute('href')`
may be `None`). -/
def addListing (acc : List String) (href : Option String) : List String :=
  match href with
  | none => acc
  | some h =>
    if PyStr.contains h "/maps/place/" && !acc.contains h then acc ++ [h]
    else acc

/-- `list(dict.fromkeys(urls))`: drop duplicates, keeping first occurrences. -/
def dedupKeepFirst (l : List String) : List String :=
  l.foldl (fun acc x => if acc.contains x then acc else acc ++ [x]) []

/-- `GoogleMapsScraper.get_business_listings`: hrefs read before and after
scrolling (oracle inputs) are appended only when they contain
`/maps/place/` and are not already collected; a final
`list(dict.fromkeys(...))` pass removes any duplicates. -/
def get_business_listings (initial afterScroll : List (Option String)) : List String :=
  dedupKeepFirst (afterScroll.foldl addListing (initial.foldl addListing []))

end Scraper

namespace Scraper

open DataFilter (BusinessData)

/-- A Python exception value (opaque message). -/
def PyErr : Type := String

/-- Oracle world for one pass of `scrape_businesses`: results of the
`search_google_maps` call, of the href reads feeding
`get_business_listings` (either may raise), of the per-iteration
`_is_browser_connected` probe, of the per-iteration recovery's
`setup_driver`, and of the extraction attempts. -/
structure World where
  search : Except PyErr Bool
  hrefs : Except PyErr (List (Option String) × List (Option String))
  connected : Nat → Bool
  loopRecoverSetupOk : Nat → Bool
  extractOra : ExtractOracle

/-- The per-URL loop of `scrape_businesses` (source lines 813-864).  Note
that the source's `i -= 1; continue` after a successful mid-loop recovery
reassigns the `for` loop variable, which Python then overwrites on the next
iteration: the current URL is skipped, not retried; the model mirrors that
behaviour.  A failed recovery after the consecutive-failure cap, or an
exhausted restart budget with `retry_on_failure` unset, breaks out of the
loop and the partial `all_business_data` is returned. -/
def scrapeLoop (w : World) (retry_on_failure : Bool) :
    List String → Nat → ScraperState → List BusinessData →
    List BusinessData × ScraperState
  | [], _, s, acc => (acc, s)
  | url :: rest, i, s, acc =>
    if !w.connected i then
      let s := { s with consecutive_failures := s.consecutive_failures + 1 }
      if s.consecutive_failures ≥ max_consecutive_failures then
        if retry_on_failure && s.session_restarts < max_session_restarts then
          match recover_browser_session (w.loopRecoverSetupOk i) s with
          | (true, s2) =>
            scrapeLoop w retry_on_failure rest (i + 1)
              { s2 with consecutive_failures := 0 } acc
          | (false, s2) => (acc, s2)
        else (acc, s)
      else
        match recover_browser_session (w.loopRecoverSetupOk i) s with
        | (true, s2) =>
          scrapeLoop w retry_on_failure rest (i + 1)
            { s2 with consecutive_failures := 0 } acc
        | (false, s2) => scrapeLoop w retry_on_failure rest (i + 1) s2 acc
    else
      match extract_business_data w.extractOra s url with
      | (some bd, s2) =>
        scrapeLoop w retry_on_failure rest (i + 1)
          { s2 with consecutive_failures := 0 } (acc ++ [bd])
      | (none, s2) =>
        scrapeLoop w retry_on_failure rest (i + 1)
          { s2 with consecutive_failures := s2.consecutive_failures + 1 } acc

/-- The `try` body of `scrape_businesses`: search, listing collection,
truncation to `max_businesses`, then the extraction loop.  The two phase
calls are opaque callees and may raise; the loop's constituents all catch
internally and are total. -/
def scrapeBody (w : World) (retry_on_failure : Bool) (max_businesses : Nat)
    (s : ScraperState) : Except PyErr (List BusinessData) × ScraperState :=
  match w.search with
  | .error e => (.error e, s)
  | .ok false => (.ok [], s)
  | .ok true =>
    match w.hrefs with
    | .error e => (.error e, s)
    | .ok (initial, afterScroll) =>
      let business_urls := get_business_listings initial afterScroll
      if business_urls = [] then (.ok [], s)
      else
        let business_urls := business_urls.take max_businesses
        let (recs, s2) := scrapeLoop w retry_on_failure business_urls 0 s []
        (.ok recs, s2)

/-- Oracle environment for a full `scrape_businesses` call: the worlds of
the first pass and of the single retry pass, and the result of the
handler's `setup_driver` call (which may raise). -/
structure ScrapeEnv where
  first : World
  handlerSetup : Except PyErr Unit
  second : World

/-- `GoogleMapsScraper.scrape_businesses` with its outer
`try/except Exception` (source lines 776-887): on an exception, when
`retry_on_failure` is set and the restart budget remains, the driver is
re-initialised and the whole workflow re-runs once with
`retry_on_failure=False` (whose own handler returns `[]`); every other
failure path returns `[]`.  The returned `Except` is the observable
behaviour at the run boundary: `.error` would mean an exception escaping
to the caller. -/
def scrape_businesses_exc (env : ScrapeEnv) (retry_on_failure : Bool)
    (max_businesses : Nat) (s : ScraperState) :
    Except PyErr (List BusinessData) × ScraperState :=
  match scrapeBody env.first retry_on_failure max_businesses s with
  | (.ok recs, s2) => (.ok recs, s2)
  | (.error _, s2) =>
    if retry_on_failure && s2.session_restarts < max_session_restarts then
      match env.handlerSetup with
      | .ok _ =>
        let s3 := { s2 with session_restarts := s2.session_restarts + 1 }
        match scrapeBody env.second false max_businesses s3 with
        | (.ok recs, s4) => (.ok recs, s4)
        | (.error _, s4) => (.ok [], s4)
      | .error _ => (.ok [], s2)
    else (.ok [], s2)

end Scraper

namespace DataFilter

/-- Each hit of the booking-platform loop yields a `<platform>_booking`
website type and leaves `has_real_website` false. -/
theorem analyzeWebsiteBooking_cases (website domain : String) :
    ∀ r, analyzeWebsiteBooking website domain = some r →
      (r.website_type = "squarespace_booking" ∨ r.website_type = "booksy_booking" ∨
       r.website_type = "acuity_booking" ∨ r.website_type = "schedulicity_booking" ∨
       r.website_type = "vagaro_booking" ∨ r.website_type = "styleseat_booking") ∧
      r.has_real_website = false := by
  intro r h
  unfold analyzeWebsiteBooking at h
  repeat' split at h
  all_goals first
    | (simp only [Option.some.injEq] at h; subst h; simp)
    | simp at h

/-- The classification chain only ever produces one of eleven website
types. -/
theorem analyzeWebsiteDomain_type_mem (website domain : String) :
    (analyzeWebsiteDomain website domain).website_type ∈
      ["none", "google", "instagram", "social_media", "squarespace_booking",
       "booksy_booking", "acuity_booking", "schedulicity_booking",
       "vagaro_booking", "styleseat_booking", "real_website"] := by
  unfold analyzeWebsiteDomain
  repeat' split
  · simp
  · simp
  · simp
  · rename_i r h
    have hc := analyzeWebsiteBooking_cases _ _ r h
    rcases hc.1 with h1 | h1 | h1 | h1 | h1 | h1 <;> simp [h1]
  · simp

/-- `_analyze_website` only ever produces one of eleven website types. -/
theorem analyze_website_type_mem (w : String) :
    (analyze_website w).website_type ∈
      ["none", "google", "instagram", "social_media", "squarespace_booking",
       "booksy_booking", "acuity_booking", "schedulicity_booking",
       "vagaro_booking", "styleseat_booking", "real_website"] := by
  unfold analyze_website
  split
  · simp
  · apply analyzeWebsiteDomain_type_mem

/-- In the classification chain, `has_real_website` is set exactly on the
`real_website` branch. -/
theorem analyzeWebsiteDomain_real (website domain : String) :
    (analyzeWebsiteDomain website domain).has_real_website = true ↔
      (analyzeWebsiteDomain website domain).website_type = "real_website" := by
  unfold analyzeWebsiteDomain
  repeat' split
  · simp
  · simp
  · simp
  · rename_i r h
    have hc := analyzeWebsiteBooking_cases _ _ r h
    rcases hc.1 with h1 | h1 | h1 | h1 | h1 | h1 <;> simp [h1, hc.2]
  · simp

/-- `_analyze_website` sets `has_real_website` exactly when it classifies
the URL as `real_website`. -/
theorem analyze_website_real (w : String) :
    (analyze_website w).has_real_website = true ↔
      (analyze_website w).website_type = "real_website" := by
  unfold analyze_website
  split
  · simp
  · apply analyzeWebsiteDomain_real

end DataFilter

namespace DataFilter

/-- The description merge and the three comprehensive-detection merges in
`analyze_business` never touch `has_real_website`. -/
theorem pre_qual_has_real (b : BusinessData) :
    (pre_qualification_analysis b).has_real_website =
      (analyze_website b.website).has_real_website := by
  unfold pre_qualification_analysis
  cases h1 : (comprehensive_instagram_detection b).instagram_found <;>
  cases h2 : (comprehensive_squarespace_detection b).found <;>
  cases h3 : (comprehensive_booksy_detection b).found <;>
  simp [h1, h2, h3]

/-- The merges in `analyze_business` never touch `website_type`. -/
theorem pre_qual_website_type (b : BusinessData) :
    (pre_qualification_analysis b).website_type =
      (analyze_website b.website).website_type := by
  unfold pre_qualification_analysis
  cases h1 : (comprehensive_instagram_detection b).instagram_found <;>
  cases h2 : (comprehensive_squarespace_detection b).found <;>
  cases h3 : (comprehensive_booksy_detection b).found <;>
  simp [h1, h2, h3]

/-- The qualification fields of `analyze_business` are exactly the fields
returned by `_determine_qualification` on the merged analysis. -/
theorem analyze_business_qualification (b : BusinessData) :
    (analyze_business b).is_qualified_lead =
      (determine_qualification (pre_qualification_analysis b)).is_qualified_lead ∧
    (analyze_business b).qualification_reason =
      (determine_qualification (pre_qualification_analysis b)).qualification_reason := by
  constructor <;> rfl

end DataFilter

open DataFilter in
/-- C1: for every business record whose website field is classified as
`real_website` by the website analyzer, `analyze_business` marks the record
not qualified (`is_qualified_lead = false`) with qualification reason
"Has established website". -/
theorem C1_real_website_not_qualified (b : BusinessData)
    (h : (analyze_website b.website).website_type = "real_website") :
    (analyze_business b).is_qualified_lead = false ∧
    (analyze_business b).qualification_reason = "Has established website" := by
  have hr : (pre_qualification_analysis b).has_real_website = true := by
    rw [pre_qual_has_real, analyze_website_real]; exact h
  have hq := analyze_business_qualification b
  rw [hq.1, hq.2]
  unfold determine_qualification
  simp [hr]

/-- Concrete record for the spec's end-to-end scenario A. -/
def circaRecord : DataFilter.BusinessData :=
  { name := "Circa Tattoo", website := "https://circatattoo.com" }

open DataFilter in
/-- Witness for C1: the "Circa Tattoo" record with a real website is
rejected with reason "Has established website". -/
theorem C1_witness :
    (analyze_website circaRecord.website).website_type = "real_website" ∧
    ((analyze_business circaRecord).is_qualified_lead = false ∧
     (analyze_business circaRecord).qualification_reason = "Has established website") :=
  ⟨by decide, C1_real_website_not_qualified circaRecord (by decide)⟩

/-- Concrete record with a facebook.com website and no other signals. -/
def fbRecord : DataFilter.BusinessData :=
  { name := "FB Tattoo", website := "https://facebook.com/somebiz" }

open DataFilter in
/-- C2 counterexample: a record whose website is a facebook.com URL is
classified `social_media` and is marked NOT qualified, with reason
"Uses social media platform (non-Instagram)" — refuting the claim that such
records are qualified with a "uses facebook instead of a dedicated website"
reason. -/
theorem C2_counterexample :
    PyStr.contains fbRecord.website "facebook.com" = true ∧
    (analyze_website fbRecord.website).website_type = "social_media" ∧
    (analyze_business fbRecord).is_qualified_lead = false ∧
    (analyze_business fbRecord).qualification_reason =
      "Uses social media platform (non-Instagram)" := by
  refine ⟨by decide, by decide, by decide, by decide⟩

open DataFilter in
/-- C2 (amended): a record whose website is classified `social_media`
(which is what a facebook.com URL receives) and in which no Instagram
signal is detected is marked NOT qualified with reason
"Uses social media platform (non-Instagram)". -/
theorem C2_social_media_not_qualified (b : BusinessData)
    (hsm : (analyze_website b.website).website_type = "social_media")
    (hig : (pre_qualification_analysis b).instagram_found = false) :
    (analyze_business b).is_qualified_lead = false ∧
    (analyze_business b).qualification_reason =
      "Uses social media platform (non-Instagram)" := by
  have hr : (pre_qualification_analysis b).has_real_website = false := by
    rw [pre_qual_has_real]
    rcases hb : (analyze_website b.website).has_real_website with _ | _
    · rfl
    · rw [analyze_website_real] at hb
      rw [hb] at hsm
      exact absurd hsm (by decide)
  have hwt : (pre_qualification_analysis b).website_type = "social_media" := by
    rw [pre_qual_website_type]; exact hsm
  have hq := analyze_business_qualification b
  rw [hq.1, hq.2]
  unfold determine_qualification
  simp [hr, hwt, hig]

open DataFilter in
/-- Witness for the amended C2 at the concrete facebook record. -/
theorem C2_witness :
    (analyze_website fbRecord.website).website_type = "social_media" ∧
    (pre_qualification_analysis fbRecord).instagram_found = false ∧
    ((analyze_business fbRecord).is_qualified_lead = false ∧
     (analyze_business fbRecord).qualification_reason =
       "Uses social media platform (non-Instagram)") :=
  ⟨by decide, by decide, C2_social_media_not_qualified fbRecord (by decide) (by decide)⟩

/-- Concrete record with a Google-domain website. -/
def googleRecord : DataFilter.BusinessData :=
  { name := "Maps Link Tattoo", website := "https://google.com/maps" }

open DataFilter in
/-- C3 counterexample: a record whose website is a Google-domain URL gets
`website_type = "google"`, which is not among the spec's six enum values
(`none, instagram, facebook, booksy, squarespace, real_website`). -/
theorem C3_counterexample :
    (analyze_business googleRecord).website_type = "google" ∧
    "google" ∉ ["none", "instagram", "facebook", "booksy", "squarespace",
                "real_website"] := by
  refine ⟨by decide, by decide⟩

open DataFilter in
/-- C3 (amended): `website_type` is always one of the eleven string values
the code can assign (`none`, `google`, `instagram`, `social_media`, the six
`<platform>_booking` forms, `real_website`) — in particular it is a string,
never null. -/
theorem C3_website_type_enum (b : BusinessData) :
    (analyze_business b).website_type ∈
      ["none", "google", "instagram", "social_media", "squarespace_booking",
       "booksy_booking", "acuity_booking", "schedulicity_booking",
       "vagaro_booking", "styleseat_booking", "real_website"] := by
  have h1 : (analyze_business b).website_type =
      (pre_qualification_analysis b).website_type := rfl
  rw [h1, pre_qual_website_type]
  exact analyze_website_type_mem b.website

open DataFilter in
/-- C5: `analyze_business` is a pure function of its input record — two
classifications of equal records agree on every output field, in particular
on `is_qualified_lead`, `qualification_reason` and `notes`. -/
theorem C5_analyze_business_deterministic (b1 b2 : BusinessData) (h : b1 = b2) :
    (analyze_business b1).is_qualified_lead = (analyze_business b2).is_qualified_lead ∧
    (analyze_business b1).qualification_reason
      = (analyze_business b2).qualification_reason ∧
    (analyze_business b1).notes = (analyze_business b2).notes ∧
    analyze_business b1 = analyze_business b2 := by
  subst h
  exact ⟨rfl, rfl, rfl, rfl⟩

open DataFilter in
/-- Witness for C5 at a concrete record. -/
theorem C5_witness :
    fbRecord = fbRecord ∧
    ((analyze_business fbRecord).is_qualified_lead
        = (analyze_business fbRecord).is_qualified_lead ∧
     (analyze_business fbRecord).qualification_reason
        = (analyze_business fbRecord).qualification_reason ∧
     (analyze_business fbRecord).notes = (analyze_business fbRecord).notes ∧
     analyze_business fbRecord = analyze_business fbRecord) :=
  ⟨rfl, C5_analyze_business_deterministic fbRecord fbRecord rfl⟩

namespace DataFilter

/-- Closed form of the accumulation loop of `filter_businesses`: analyses
are appended in arrival order, qualified ones are the in-order filter. -/
theorem filterLoop_spec (bs : List BusinessData) (q a : List Analysis) :
    filterLoop bs (q, a) =
      (q ++ (bs.map analyze_business).filter (fun x => x.is_qualified_lead),
       a ++ bs.map analyze_business) := by
  induction bs generalizing q a with
  | nil => simp [filterLoop]
  | cons b bs ih =>
    by_cases h : (analyze_business b).is_qualified_lead = true <;>
      simp [filterLoop, ih, h, List.filter_cons]

end DataFilter

open DataFilter in
/-- C6: `filter_businesses` analyses every record in arrival order and its
qualified-leads list is exactly the in-order filter of those analyses; as a
pure function of the input list it leaves the input records untouched. -/
theorem C6_filter_order_stable (bs : List BusinessData) :
    (filter_businesses bs).all_analysis = bs.map analyze_business ∧
    (filter_businesses bs).qualified_leads =
      (bs.map analyze_business).filter (fun x => x.is_qualified_lead) := by
  unfold filter_businesses
  rw [filterLoop_spec]
  simp

open DataFilter in
/-- C7: on a non-empty batch, `qualified_count` is the number of qualified
records and `qualification_rate` is `qualified_count / total * 100`. -/
theorem C7_aggregate_counts (bs : List BusinessData) (h : bs ≠ []) :
    (filter_businesses bs).qualified_count =
      ((bs.map analyze_business).filter (fun x => x.is_qualified_lead)).length ∧
    (filter_businesses bs).qualification_rate =
      ((filter_businesses bs).qualified_count : ℚ) /
        ((filter_businesses bs).total_businesses : ℚ) * 100 := by
  unfold filter_businesses
  rw [filterLoop_spec]
  simp [h]

/-- The spec's batch-aggregate scenario: five records, four of which
qualify (no web presence) and one of which has a real website. -/
def batchFive : List DataFilter.BusinessData :=
  [{ name := "Alpha Tattoo" }, { name := "Beta Tattoo" },
   { name := "Gamma Tattoo" }, { name := "Delta Tattoo" },
   { name := "Omega Tattoo", website := "https://omegatattoo.com" }]

open DataFilter in
/-- Witness for C7: on the five-record batch with four qualifying leads the
aggregate reports `qualified_count = 4` and `qualification_rate = 80`. -/
theorem C7_witness :
    batchFive ≠ [] ∧
    (filter_businesses batchFive).qualified_count = 4 ∧
    (filter_businesses batchFive).qualification_rate = 80 := by
  have h : batchFive ≠ [] := by decide
  have hc := C7_aggregate_counts batchFive h
  have h4 : (filter_businesses batchFive).qualified_count = 4 := by decide
  have h5 : (filter_businesses batchFive).total_businesses = 5 := by decide
  refine ⟨h, h4, ?_⟩
  rw [hc.2, h4, h5]
  norm_num

open DataFilter in
/-- C10: on the empty batch `filter_businesses` is total: no division by
zero occurs, the rate is 0, the count is 0 and the leads list is empty. -/
theorem C10_empty_batch :
    (filter_businesses ([] : List BusinessData)).qualification_rate = 0 ∧
    (filter_businesses ([] : List BusinessData)).qualified_count = 0 ∧
    (filter_businesses ([] : List BusinessData)).qualified_leads = [] := by
  refine ⟨by decide, rfl, rfl⟩

namespace PyRe

/-- Shape of the captured-group list produced by matching a token list:
each `capPlus` contributes a non-empty run of its class, each `capRun` a
fixed-length run of its class; other tokens contribute no group. -/
def capsSpec : List RTok → List (List Char) → Prop
  | [], caps => caps = []
  | .capPlus f :: rest, caps =>
    ∃ cs caps2, caps = cs :: caps2 ∧ cs ≠ [] ∧ cs.all f = true ∧ capsSpec rest caps2
  | .capRun f n :: rest, caps =>
    ∃ cs caps2, caps = cs :: caps2 ∧ cs.length = n ∧ cs.all f = true ∧ capsSpec rest caps2
  | _ :: rest, caps => capsSpec rest caps

/-- A successful descending backtracking search succeeds at some index. -/
theorem tryDesc_eq_some {β : Type} (k : Nat) (f : Nat → Option β) (b : β)
    (h : tryDesc k f = some b) : ∃ i, i ≤ k ∧ f i = some b := by
  induction k with
  | zero => exact ⟨0, le_refl 0, h⟩
  | succ k ih =>
    rw [tryDesc] at h
    rcases hf : f (k + 1) with _ | v
    · rw [hf] at h
      simp only [Option.orElse] at h
      rcases ih h with ⟨i, hik, hfi⟩
      exact ⟨i, Nat.le_succ_of_le hik, hfi⟩
    · rw [hf] at h
      simp only [Option.orElse] at h
      exact ⟨k + 1, le_refl _, hf.trans h⟩

/-- A prefix no longer than the `takeWhile` run satisfies the class. -/
theorem all_take_of_le_takeWhile (f : Char → Bool) :
    ∀ (l : List Char) (i : Nat), i ≤ (l.takeWhile f).length →
      (l.take i).all f = true := by
  intro l
  induction l with
  | nil => intro i h; simp at h; simp [h]
  | cons c cs ih =>
    intro i h
    rcases i with _ | j
    · simp
    · rw [List.takeWhile] at h
      rcases hf : f c with _ | _
      · rw [hf] at h; simp at h
      · rw [hf] at h
        simp only [List.length_cons] at h
        have hj : j ≤ (cs.takeWhile f).length := Nat.le_of_succ_le_succ h
        simp [List.take, List.all_cons, hf, ih j hj]

/-- Every successful match produces captures of the specified shape. -/
theorem matchToks_capsSpec :
    ∀ (toks : List RTok) (s : List Char) (caps : List (List Char))
      (rest : List Char), matchToks toks s = some (caps, rest) →
      capsSpec toks caps := by
  intro toks
  induction toks with
  | nil =>
    intro s caps rest h
    simp [matchToks] at h
    simp [capsSpec, h.1]
  | cons t ts ih =>
    intro s caps rest h
    cases t with
    | lit cs =>
      rw [matchToks] at h
      split at h
      · exact ih _ _ _ h
      · exact Option.noConfusion h
    | optChar c =>
      rcases s with _ | ⟨x, s2⟩
      · rw [matchToks] at h
        exact ih _ _ _ h
      · rw [matchToks] at h
        split at h
        · rcases h1 : matchToks ts s2 with _ | v
          · rw [h1] at h; simp only [Option.orElse] at h
            exact ih _ _ _ h
          · rw [h1] at h; simp only [Option.orElse] at h
            rw [Option.some.inj h] at h1
            exact ih _ _ _ h1
        · exact ih _ _ _ h
    | optCls f =>
      rcases s with _ | ⟨x, s2⟩
      · rw [matchToks] at h
        exact ih _ _ _ h
      · rw [matchToks] at h
        split at h
        · rcases h1 : matchToks ts s2 with _ | v
          · rw [h1] at h; simp only [Option.orElse] at h
            exact ih _ _ _ h
          · rw [h1] at h; simp only [Option.orElse] at h
            rw [Option.some.inj h] at h1
            exact ih _ _ _ h1
        · exact ih _ _ _ h
    | starCls f =>
      rw [matchToks] at h
      rcases tryDesc_eq_some _ _ _ h with ⟨i, _, hfi⟩
      exact ih _ _ _ hfi
    | lazyDot =>
      rw [matchToks] at h
      rcases tryDesc_eq_some _ _ _ h with ⟨i, _, hfi⟩
      exact ih _ _ _ hfi
    | capPlus f =>
      rw [matchToks] at h
      split at h
      · exact Option.noConfusion h
      · rename_i hk
        rcases tryDesc_eq_some _ _ _ h with ⟨j, hjk, hfj⟩
        rcases h1 : matchToks ts (s.drop (j + 1)) with _ | ⟨caps2, rest2⟩
        · rw [h1] at hfj; simp at hfj
        · rw [h1] at hfj
          simp only [Option.map, Option.some.injEq, Prod.mk.injEq] at hfj
          have hcaps : caps = s.take (j + 1) :: caps2 := hfj.1.symm
          have hkpos : 0 < (s.takeWhile f).length := Nat.pos_of_ne_zero hk
          have hall : (s.take (j + 1)).all f = true := by
            apply all_take_of_le_takeWhile
            omega
          have hne : s.take (j + 1) ≠ [] := by
            have hkle : (s.takeWhile f).length ≤ s.length :=
              List.Sublist.length_le (List.takeWhile_sublist f)
            have hlen : (s.take (j + 1)).length = min (j + 1) s.length :=
              List.length_take _ _
            intro hemp
            rw [hemp] at hlen
            simp only [List.length_nil] at hlen
            omega
          rw [capsSpec, hcaps]
          exact ⟨s.take (j + 1), caps2, rfl, hne, hall, ih _ _ _ h1⟩
    | capRun f n =>
      rw [matchToks] at h
      split at h
      · rename_i hcond
        rcases h1 : matchToks ts (s.drop n) with _ | ⟨caps2, rest2⟩
        · rw [h1] at h; simp at h
        · rw [h1] at h
          simp only [Option.map, Option.some.injEq, Prod.mk.injEq] at h
          have hcaps : caps = s.take n :: caps2 := h.1.symm
          simp only [Bool.and_eq_true, decide_eq_true_eq] at hcond
          rw [capsSpec, hcaps]
          exact ⟨s.take n, caps2, rfl, hcond.1, hcond.2, ih _ _ _ h1⟩
      · exact Option.noConfusion h

/-- Every `findall` hit arises from a successful match. -/
theorem findAllAux_mem (toks : List RTok) :
    ∀ (fuel : Nat) (s : List Char) (caps : List (List Char)),
      caps ∈ findAllAux toks fuel s →
      ∃ s2 rest, matchToks toks s2 = some (caps, rest) := by
  intro fuel
  induction fuel with
  | zero => intro s caps h; simp [findAllAux] at h
  | succ fuel ih =>
    intro s caps h
    rcases s with _ | ⟨c, rest0⟩
    · rw [findAllAux] at h
      rcases h1 : matchToks toks [] with _ | ⟨caps2, rest2⟩
      · rw [h1] at h; simp at h
      · rw [h1] at h
        simp at h
        exact ⟨[], rest2, by rw [h1, h]⟩
    · rw [findAllAux] at h
      rcases h1 : matchToks toks (c :: rest0) with _ | ⟨caps2, rest2⟩
      · rw [h1] at h
        exact ih _ _ h
      · rw [h1] at h
        simp only [List.mem_cons] at h
        rcases h with h | h
        · exact ⟨c :: rest0, rest2, by rw [h1, h]⟩
        · split at h
          · exact ih _ _ h
          · exact ih _ _ h

theorem findAll_capsSpec (toks : List RTok) (s : List Char)
    (caps : List (List Char)) (h : caps ∈ findAll toks s) : capsSpec toks caps := by
  rcases findAllAux_mem toks _ _ _ h with ⟨s2, rest, hm⟩
  exact matchToks_capsSpec toks s2 caps rest hm

end PyRe

namespace Scraper

/-- Captures of any of the three phone patterns are three all-digit groups
of lengths 3, 3 and 4. -/
theorem phone_caps_shape (pat : List PyRe.RTok) (hp : pat ∈ phone_patterns)
    (caps : List (List Char)) (hs : PyRe.capsSpec pat caps) :
    ∃ a b c, caps = [a, b, c] ∧ a.length = 3 ∧ b.length = 3 ∧ c.length = 4 ∧
      a.all Char.isDigit = true ∧ b.all Char.isDigit = true ∧
      c.all Char.isDigit = true := by
  simp only [phone_patterns, List.mem_cons, List.mem_singleton,
    List.not_mem_nil, or_false] at hp
  rcases hp with hp | hp | hp <;>
  · subst hp
    simp only [PyRe.capsSpec] at hs
    obtain ⟨a, c1, rfl, ha3, haD, hs⟩ := hs
    obtain ⟨b, c2, rfl, hb3, hbD, hs⟩ := hs
    obtain ⟨c, c3, rfl, hc4, hcD, hs⟩ := hs
    rw [hs]
    exact ⟨a, b, c, rfl, ha3, hb3, hc4, haD, hbD, hcD⟩

/-- Whatever `_extract_phone_fallback` writes has the fixed
`(XXX) XXX-XXXX` shape built from three all-digit groups. -/
theorem extract_phone_fallback_shape (page p : String)
    (h : extract_phone_fallback page = some p) :
    ∃ a b c : List Char, a.length = 3 ∧ b.length = 3 ∧ c.length = 4 ∧
      a.all Char.isDigit = true ∧ b.all Char.isDigit = true ∧
      c.all Char.isDigit = true ∧
      p = "(" ++ String.mk a ++ ") " ++ String.mk b ++ "-" ++ String.mk c := by
  unfold extract_phone_fallback at h
  rcases hfs : phone_patterns.findSome? (fun pat =>
      match PyRe.findAll pat page.data with
      | caps :: _ => some caps
      | [] => none) with _ | caps
  · rw [hfs] at h; simp at h
  · rw [hfs] at h
    simp only [Option.bind] at h
    have hmem := List.exists_of_findSome?_eq_some hfs
    rcases hmem with ⟨pat, hpat, hf⟩
    have hcaps : caps ∈ PyRe.findAll pat page.data := by
      revert hf
      rcases hfa : PyRe.findAll pat page.data with _ | ⟨c0, cs⟩
      · intro hf; simp at hf
      · intro hf
        simp only [Option.some.injEq] at hf
        rw [hf]
        exact List.mem_cons_self _ _
    have hspec := PyRe.findAll_capsSpec pat page.data caps hcaps
    rcases phone_caps_shape pat hpat caps hspec with
      ⟨a, b, c, rfl, ha3, hb3, hc4, haD, hbD, hcD⟩
    split at h
    · rename_i hlen
      simp only [Option.some.injEq] at h
      exact ⟨a, b, c, ha3, hb3, hc4, haD, hbD, hcD, h.symm⟩
    · exact Option.noConfusion h

end Scraper

open Scraper in
/-- C8 counterexample: on the page text `"555"` (too short to isolate a
10-digit number) the fallback writes nothing and the phone field keeps the
code's actual sentinel, the empty string — not the spec's "not available". -/
theorem C8_counterexample :
    extract_phone_fallback "555" = none ∧
    phone_after_fallback "" "555" = "" ∧
    "" ≠ "not available" := by
  refine ⟨by decide, by decide, by decide⟩

open Scraper in
/-- C8 (amended): whenever the fallback patterns isolate a 10-digit North
American number the phone field gets the fixed `(XXX) XXX-XXXX` shape —
`"+1 (615) 555-0123"` yields `"(615) 555-0123"` — and otherwise the phone
field keeps the empty-string default, as on the too-short input `"555"`. -/
theorem C8_phone_normalization :
    (∀ page p : String, extract_phone_fallback page = some p →
      ∃ a b c : List Char, a.length = 3 ∧ b.length = 3 ∧ c.length = 4 ∧
        a.all Char.isDigit = true ∧ b.all Char.isDigit = true ∧
        c.all Char.isDigit = true ∧
        p = "(" ++ String.mk a ++ ") " ++ String.mk b ++ "-" ++ String.mk c) ∧
    phone_after_fallback "" "+1 (615) 555-0123" = "(615) 555-0123" ∧
    phone_after_fallback "" "555" = "" := by
  refine ⟨extract_phone_fallback_shape, by decide, by decide⟩

open Scraper in
/-- Witness for C8: the shape statement applied at the spec's concrete
input. -/
theorem C8_witness :
    extract_phone_fallback "+1 (615) 555-0123" = some "(615) 555-0123" ∧
    ∃ a b c : List Char, a.length = 3 ∧ b.length = 3 ∧ c.length = 4 ∧
      a.all Char.isDigit = true ∧ b.all Char.isDigit = true ∧
      c.all Char.isDigit = true ∧
      "(615) 555-0123" =
        "(" ++ String.mk a ++ ") " ++ String.mk b ++ "-" ++ String.mk c :=
  ⟨by decide, C8_phone_normalization.1 "+1 (615) 555-0123" "(615) 555-0123" (by decide)⟩

namespace Scraper

/-- Invariant of the URL cache: every cached record's `url` field is its
key (maintained because `extract_business_data` caches each record under
the URL it was extracted from). -/
def cacheInv (c : List (String × DataFilter.BusinessData)) : Prop :=
  ∀ p ∈ c, p.2.url = p.1

theorem cacheLookup_url {c : List (String × DataFilter.BusinessData)} {u : String}
    {bd : DataFilter.BusinessData} (hinv : cacheInv c)
    (h : cacheLookup c u = some bd) : bd.url = u := by
  unfold cacheLookup at h
  rcases hf : c.find? (fun p => decide (p.1 = u)) with _ | p
  · rw [hf] at h; simp at h
  · rw [hf] at h
    simp only [Option.map, Option.some.injEq] at h
    have hmem := List.mem_of_find?_eq_some hf
    have hkey := List.find?_some hf
    simp only [decide_eq_true_eq] at hkey
    rw [← h, hinv p hmem, hkey]

/-- `_recover_browser_session` never touches the cache or failure list. -/
theorem recover_cache (ok : Bool) (s : ScraperState) :
    ((recover_browser_session ok s).2.business_cache = s.business_cache) ∧
    ((recover_browser_session ok s).2.failed_urls = s.failed_urls) := by
  unfold recover_browser_session
  split <;> [skip; split] <;> exact ⟨rfl, rfl⟩

/-- The extraction retry loop returns records stamped with the requested
URL and preserves the cache invariant. -/
theorem extractAttemptLoop_spec (ora : ExtractOracle) (url : String) :
    ∀ (remaining attempt : Nat) (s : ScraperState),
      cacheInv s.business_cache →
      (∀ bd s2, extractAttemptLoop ora url remaining attempt s = (some bd, s2) →
        bd.url = url ∧ cacheInv s2.business_cache) ∧
      (∀ s2, extractAttemptLoop ora url remaining attempt s = (none, s2) →
        cacheInv s2.business_cache) := by
  intro remaining
  induction remaining with
  | zero =>
    intro attempt s hinv
    constructor
    · intro bd s2 h
      rw [extractAttemptLoop] at h
      exact Option.noConfusion (congrArg Prod.fst h)
    · intro s2 h
      rw [extractAttemptLoop] at h
      have := congrArg Prod.snd h
      simp only at this
      rw [← this]
      exact hinv
  | succ remaining ih =>
    intro attempt s hinv
    rw [extractAttemptLoop]
    cases ora url attempt with
    | notConnected setupOk =>
      simp only
      split
      · constructor
        · intro bd s2 h; exact Option.noConfusion (congrArg Prod.fst h)
        · intro s2 h
          have := congrArg Prod.snd h
          simp only at this
          rw [← this]
          exact hinv
      · have hc := (recover_cache setupOk s).1
        exact ih (attempt + 1) (recover_browser_session setupOk s).2
          (by rw [hc]; exact hinv)
    | workerTimeout =>
      simp only
      split
      · constructor
        · intro bd s2 h; exact Option.noConfusion (congrArg Prod.fst h)
        · intro s2 h
          have := congrArg Prod.snd h
          simp only at this
          rw [← this]; exact hinv
      · exact ih (attempt + 1) s hinv
    | workerNone =>
      simp only
      split
      · constructor
        · intro bd s2 h; exact Option.noConfusion (congrArg Prod.fst h)
        · intro s2 h
          have := congrArg Prod.snd h
          simp only at this
          rw [← this]; exact hinv
      · exact ih (attempt + 1) s hinv
    | workerData name primaryPhone address website description pageText =>
      simp only
      split
      · split
        · constructor
          · intro bd s2 h; exact Option.noConfusion (congrArg Prod.fst h)
          · intro s2 h
            have := congrArg Prod.snd h
            simp only at this
            rw [← this]; exact hinv
        · exact ih (attempt + 1) s hinv
      · rename_i hname
        constructor
        · intro bd s2 h
          have h1 := congrArg Prod.fst h
          have h2 := congrArg Prod.snd h
          simp only at h1 h2
          constructor
          · rw [← Option.some.inj h1]
          · rw [← h2]
            intro p hp
            simp only [List.mem_append, List.mem_singleton] at hp
            rcases hp with hp | hp
            · exact hinv p hp
            · rw [hp]
        · intro s2 h
          exact Option.noConfusion (congrArg Prod.fst h)
    | wdInvalidSession setupOk =>
      simp only
      split
      · constructor
        · intro bd s2 h; exact Option.noConfusion (congrArg Prod.fst h)
        · intro s2 h
          have := congrArg Prod.snd h
          simp only at this
          rw [← this]; exact hinv
      · have hc := (recover_cache setupOk s).1
        exact ih (attempt + 1) (recover_browser_session setupOk s).2
          (by rw [hc]; exact hinv)
    | wdOtherError =>
      simp only
      split
      · constructor
        · intro bd s2 h; exact Option.noConfusion (congrArg Prod.fst h)
        · intro s2 h
          have := congrArg Prod.snd h
          simp only at this
          rw [← this]; exact hinv
      · exact ih (attempt + 1) s hinv
    | otherError =>
      simp only
      split
      · constructor
        · intro bd s2 h; exact Option.noConfusion (congrArg Prod.fst h)
        · intro s2 h
          have := congrArg Prod.snd h
          simp only at this
          rw [← this]; exact hinv
      · exact ih (attempt + 1) s hinv

/-- `extract_business_data` returns records stamped with the requested URL
and preserves the cache invariant. -/
theorem extract_business_data_spec (ora : ExtractOracle) (s : ScraperState)
    (url : String) (hinv : cacheInv s.business_cache) :
    (∀ bd s2, extract_business_data ora s url = (some bd, s2) →
      bd.url = url ∧ cacheInv s2.business_cache) ∧
    (∀ s2, extract_business_data ora s url = (none, s2) →
      cacheInv s2.business_cache) := by
  constructor
  · intro bd s2 h
    unfold extract_business_data at h
    split at h
    · rename_i bd0 hl
      have h1 := congrArg Prod.fst h
      have h2 := congrArg Prod.snd h
      simp only [Option.some.injEq] at h1
      simp only at h2
      constructor
      · rw [← h1]; exact cacheLookup_url hinv hl
      · rw [← h2]; exact hinv
    · split at h
      · exact Option.noConfusion (congrArg Prod.fst h)
      · exact (extractAttemptLoop_spec ora url 3 0 s hinv).1 bd s2 h
  · intro s2 h
    unfold extract_business_data at h
    split at h
    · exact Option.noConfusion (congrArg Prod.fst h)
    · split at h
      · have := congrArg Prod.snd h
        simp only at this
        rw [← this]; exact hinv
      · exact (extractAttemptLoop_spec ora url 3 0 s hinv).2 s2 h

/-- The records a loop pass appends carry URLs forming a sublist of the
processed URL list, and the cache invariant is preserved. -/
theorem scrapeLoop_spec (w : World) (retry : Bool) :
    ∀ (urls : List String) (i : Nat) (s : ScraperState)
      (acc : List DataFilter.BusinessData),
      cacheInv s.business_cache →
      ∃ extra s2, scrapeLoop w retry urls i s acc = (acc ++ extra, s2) ∧
        List.Sublist (extra.map (fun r => r.url)) urls ∧
        cacheInv s2.business_cache := by
  intro urls
  induction urls with
  | nil =>
    intro i s acc hinv
    exact ⟨[], s, by simp [scrapeLoop], List.nil_sublist _, hinv⟩
  | cons url rest ih =>
    intro i s acc hinv
    simp only [scrapeLoop]
    split
    · split
      · split
        · split
          · rename_i s2 hrec
            have hc := (recover_cache (w.loopRecoverSetupOk i)
              { s with consecutive_failures := s.consecutive_failures + 1 }).1
            have hinv2 : cacheInv s2.business_cache := by
              have := congrArg Prod.snd hrec
              simp only at this
              rw [← this, hc]
              exact hinv
            rcases ih (i + 1) { s2 with consecutive_failures := 0 } acc hinv2 with
              ⟨extra, s3, heq, hsub, hinv3⟩
            exact ⟨extra, s3, heq, List.Sublist.cons url hsub, hinv3⟩
          · rename_i s2 hrec
            refine ⟨[], s2, by simp, List.nil_sublist _, ?_⟩
            have hc := (recover_cache (w.loopRecoverSetupOk i)
              { s with consecutive_failures := s.consecutive_failures + 1 }).1
            have := congrArg Prod.snd hrec
            simp only at this
            rw [← this, hc]
            exact hinv
        · exact ⟨[], { s with consecutive_failures := s.consecutive_failures + 1 },
            by simp, List.nil_sublist _, hinv⟩
      · split
        · rename_i s2 hrec
          have hc := (recover_cache (w.loopRecoverSetupOk i)
            { s with consecutive_failures := s.consecutive_failures + 1 }).1
          have hinv2 : cacheInv s2.business_cache := by
            have := congrArg Prod.snd hrec
            simp only at this
            rw [← this, hc]
            exact hinv
          rcases ih (i + 1) { s2 with consecutive_failures := 0 } acc hinv2 with
            ⟨extra, s3, heq, hsub, hinv3⟩
          exact ⟨extra, s3, heq, List.Sublist.cons url hsub, hinv3⟩
        · rename_i s2 hrec
          have hc := (recover_cache (w.loopRecoverSetupOk i)
            { s with consecutive_failures := s.consecutive_failures + 1 }).1
          have hinv2 : cacheInv s2.business_cache := by
            have := congrArg Prod.snd hrec
            simp only at this
            rw [← this, hc]
            exact hinv
          rcases ih (i + 1) s2 acc hinv2 with ⟨extra, s3, heq, hsub, hinv3⟩
          exact ⟨extra, s3, heq, List.Sublist.cons url hsub, hinv3⟩
    · split
      · rename_i bd s2 hext
        have hspec := (extract_business_data_spec w.extractOra s url hinv).1 bd s2 hext
        rcases ih (i + 1) { s2 with consecutive_failures := 0 } (acc ++ [bd])
          hspec.2 with ⟨extra, s3, heq, hsub, hinv3⟩
        refine ⟨bd :: extra, s3, ?_, ?_, hinv3⟩
        · rw [heq, List.append_assoc]
          rfl
        · simp only [List.map_cons]
          rw [hspec.1]
          exact List.Sublist.cons₂ url hsub
      · rename_i s2 hext
        have hinv2 := (extract_business_data_spec w.extractOra s url hinv).2 s2 hext
        rcases ih (i + 1) { s2 with consecutive_failures := s2.consecutive_failures + 1 }
          acc hinv2 with ⟨extra, s3, heq, hsub, hinv3⟩
        exact ⟨extra, s3, heq, List.Sublist.cons url hsub, hinv3⟩

/-- The `dict.fromkeys` style fold produces a duplicate-free list. -/
theorem dedupFold_nodup :
    ∀ (l : List String) (acc : List String), acc.Nodup →
      (l.foldl (fun acc x => if acc.contains x then acc else acc ++ [x]) acc).Nodup := by
  intro l
  induction l with
  | nil => intro acc h; simpa [List.foldl] using h
  | cons x xs ih =>
    intro acc h
    simp only [List.foldl]
    rcases hc : acc.contains x with _ | _
    · simp only [hc, Bool.false_eq_true, if_false]
      apply ih
      have hmem : x ∉ acc := by
        simp at hc
        exact hc
      simp [List.nodup_append, h, hmem]
    · simp only [hc, if_true]
      exact ih acc h

theorem dedupKeepFirst_nodup (l : List String) : (dedupKeepFirst l).Nodup :=
  dedupFold_nodup l [] List.nodup_nil

/-- `get_business_listings` never returns duplicate URLs. -/
theorem get_business_listings_nodup (initial afterScroll : List (Option String)) :
    (get_business_listings initial afterScroll).Nodup :=
  dedupKeepFirst_nodup _

/-- One `try`-body pass preserves the cache invariant, and, when it
completes normally, its records carry pairwise-distinct URLs. -/
theorem scrapeBody_spec (w : World) (retry : Bool) (maxB : Nat)
    (s : ScraperState) (hinv : cacheInv s.business_cache) :
    cacheInv (scrapeBody w retry maxB s).2.business_cache ∧
    (∀ l, (scrapeBody w retry maxB s).1 = Except.ok l →
      (l.map (fun r => r.url)).Nodup) := by
  unfold scrapeBody
  rcases w.search with e | b
  · exact ⟨hinv, fun l h => Except.noConfusion h⟩
  · rcases b with _ | _
    · exact ⟨hinv, fun l h => by injection h with h2; rw [← h2]; exact List.nodup_nil⟩
    · rcases w.hrefs with e | ⟨initial, afterScroll⟩
      · exact ⟨hinv, fun l h => Except.noConfusion h⟩
      · simp only
        split
        · exact ⟨hinv, fun l h => by injection h with h2; rw [← h2]; exact List.nodup_nil⟩
        · have hnodup : (get_business_listings initial afterScroll).Nodup :=
            get_business_listings_nodup initial afterScroll
          have hnodup2 : ((get_business_listings initial afterScroll).take maxB).Nodup :=
            hnodup.sublist (List.take_sublist maxB _)
          obtain ⟨extra, s2, heq, hsub, hinv2⟩ :=
            scrapeLoop_spec w retry ((get_business_listings initial afterScroll).take maxB)
              0 s [] hinv
          rw [heq]
          refine ⟨hinv2, ?_⟩
          intro l h
          simp only [Except.ok.injEq] at h
          rw [← h]
          simp only [List.nil_append]
          exact hnodup2.sublist hsub

end Scraper

open Scraper in
/-- C4: within one run, (i) the records returned through the run boundary
carry pairwise-distinct identifiers (their listing URLs), (ii) collected
listing URLs are deduplicated, (iii) a URL present in the cache is answered
from the cache — same record, unchanged state, no re-extraction for any
oracle — and (iv) a URL on the failure list (and not in the cache) is
skipped: `None`, unchanged state, for any oracle. -/
theorem C4_run_dedup (env : ScrapeEnv) (retry : Bool) (maxB : Nat)
    (s : ScraperState) (hinv : cacheInv s.business_cache) :
    (∀ l s2, scrape_businesses_exc env retry maxB s = (Except.ok l, s2) →
      (l.map (fun r => r.url)).Nodup) ∧
    (∀ initial afterScroll, (get_business_listings initial afterScroll).Nodup) ∧
    (∀ ora u bd, cacheLookup s.business_cache u = some bd →
      extract_business_data ora s u = (some bd, s)) ∧
    (∀ ora u, cacheLookup s.business_cache u = none →
      s.failed_urls.contains u = true →
      extract_business_data ora s u = (none, s)) := by
  refine ⟨?_, ?_, ?_, ?_⟩
  · intro l s3 heq
    unfold scrape_businesses_exc at heq
    rcases hb : scrapeBody env.first retry maxB s with ⟨res, s2⟩
    rw [hb] at heq
    have hspec1 := scrapeBody_spec env.first retry maxB s hinv
    rw [hb] at hspec1
    rcases res with e | l1
    · simp only at heq
      split at heq
      · rcases hset : env.handlerSetup with e2 | u
        · rw [hset] at heq
          injection heq with heq1 heq2
          injection heq1 with heq1
          rw [← heq1]
          exact List.nodup_nil
        · rw [hset] at heq
          simp only at heq
          rcases hb2 : scrapeBody env.second false maxB
              { s2 with session_restarts := s2.session_restarts + 1 } with ⟨res2, s4⟩
          rw [hb2] at heq
          have hspec2 := scrapeBody_spec env.second false maxB
            { s2 with session_restarts := s2.session_restarts + 1 } hspec1.1
          rw [hb2] at hspec2
          rcases res2 with e2 | l2
          · injection heq with heq1 heq2
            injection heq1 with heq1
            rw [← heq1]
            exact List.nodup_nil
          · injection heq with heq1 heq2
            injection heq1 with heq1
            rw [← heq1]
            exact hspec2.2 l2 rfl
      · injection heq with heq1 heq2
        injection heq1 with heq1
        rw [← heq1]
        exact List.nodup_nil
    · injection heq with heq1 heq2
      injection heq1 with heq1
      rw [← heq1]
      exact hspec1.2 l1 rfl
  · intro initial afterScroll
    exact get_business_listings_nodup initial afterScroll
  · intro ora u bd hl
    simp [extract_business_data, hl]
  · intro ora u hl hf
    have hm : u ∈ s.failed_urls := by simpa using hf
    simp [extract_business_data, hl, hm]

open Scraper in
/-- C9: `scrape_businesses` never lets an exception escape the run
boundary: for every oracle environment, every retry flag, every bound and
every starting state, the call returns `Except.ok` with a (possibly empty)
record list. -/
theorem C9_never_raises (env : ScrapeEnv) (retry : Bool) (maxB : Nat)
    (s : ScraperState) :
    ∃ l s2, scrape_businesses_exc env retry maxB s = (Except.ok l, s2) := by
  unfold scrape_businesses_exc
  rcases hb : scrapeBody env.first retry maxB s with ⟨res, s2⟩
  rcases res with e | l
  · simp only
    split
    · rcases env.handlerSetup with e2 | u
      · exact ⟨[], s2, rfl⟩
      · simp only
        rcases hb2 : scrapeBody env.second false maxB
            { s2 with session_restarts := s2.session_restarts + 1 } with ⟨res2, s4⟩
        rcases res2 with e2 | l2
        · exact ⟨[], s4, rfl⟩
        · exact ⟨l2, s4, rfl⟩
    · exact ⟨[], s2, rfl⟩
  · exact ⟨l, s2, rfl⟩

/-- Concrete oracle world: a successful search, four href reads (one
`None`, one duplicate) plus one more after scrolling, stable connectivity,
and extractions that always succeed. -/
def wWorld : Scraper.World :=
  { search := Except.ok true,
    hrefs := Except.ok
      ([some "https://www.google.com/maps/place/alpha", none,
        some "https://www.google.com/maps/place/beta",
        some "https://www.google.com/maps/place/alpha"],
       [some "https://www.google.com/maps/place/gamma"]),
    connected := fun _ => true,
    loopRecoverSetupOk := fun _ => true,
    extractOra := fun _ _ => Scraper.AttemptOutcome.workerData "Biz" "" "Addr" "" "" "" }

def wEnv : Scraper.ScrapeEnv :=
  { first := wWorld, handlerSetup := Except.ok (), second := wWorld }

/-- Record already cached under URL `"u1"`. -/
def wCached : DataFilter.BusinessData := { name := "Cached Biz", url := "u1" }

/-- Starting state with one cached URL and one failed URL. -/
def wState : Scraper.ScraperState :=
  { business_cache := [("u1", wCached)], failed_urls := ["u9"] }

def wRun : Except Scraper.PyErr (List DataFilter.BusinessData) × Scraper.ScraperState :=
  Scraper.scrape_businesses_exc wEnv true 50 wState

def wRecords : List DataFilter.BusinessData :=
  match wRun.1 with
  | Except.ok l => l
  | Except.error _ => []

open Scraper in
/-- Witness for C4 on the concrete environment: the returned record URLs
are duplicate-free, the cached URL is answered from the cache with the
state unchanged, and the failed URL is skipped with the state unchanged. -/
theorem C4_witness :
    cacheInv wState.business_cache ∧
    ((wRecords.map (fun r => r.url)).Nodup ∧
     extract_business_data wWorld.extractOra wState "u1" = (some wCached, wState) ∧
     extract_business_data wWorld.extractOra wState "u9" = (none, wState)) :=
  have hinv : cacheInv wState.business_cache := by
    unfold cacheInv wState wCached
    decide
  ⟨hinv,
   (C4_run_dedup wEnv true 50 wState hinv).1 wRecords wRun.2 rfl,
   (C4_run_dedup wEnv true 50 wState hinv).2.2.1 wWorld.extractOra "u1" wCached rfl,
   (C4_run_dedup wEnv true 50 wState hinv).2.2.2 wWorld.extractOra "u9" rfl rfl⟩
